import Mathlib

/-!
Shallow embedding of the real-time motion subsystem of the `hyakou` renderer
(trajectories, animator playback controller, camera orientation smoothing and
fly-camera movement), with `f32` idealized as `ℝ`.  Each Rust structure is
mirrored by a Lean structure; the contents of the shared
`Arc<RwLock<Transform>>` cell is carried in the strategy state as
`transformPos`, and the outcome of the non-blocking `try_write` is an explicit
`lockAcquired : Bool` parameter of the operations that attempt it.
-/

namespace Hyakou

noncomputable section

/-- `glam::Vec3` with its three `f32` components idealized as reals. -/
structure Vec3 where
  x : ℝ
  y : ℝ
  z : ℝ

namespace Vec3

def add (v w : Vec3) : Vec3 := ⟨v.x + w.x, v.y + w.y, v.z + w.z⟩

def sub (v w : Vec3) : Vec3 := ⟨v.x - w.x, v.y - w.y, v.z - w.z⟩

/-- `v * c` for a `glam` vector `v` and scalar `c` (componentwise). -/
def scale (v : Vec3) (c : ℝ) : Vec3 := ⟨v.x * c, v.y * c, v.z * c⟩

instance : Add Vec3 := ⟨Vec3.add⟩

instance : Sub Vec3 := ⟨Vec3.sub⟩

instance : Zero Vec3 := ⟨⟨0, 0, 0⟩⟩

/-- `glam::Vec3::length`: the Euclidean norm. -/
def length (v : Vec3) : ℝ := Real.sqrt (v.x ^ 2 + v.y ^ 2 + v.z ^ 2)

/-- `glam::Vec3::normalize`: `self * (1 / length)`.  (On the zero vector the
Rust version is not finite; here real division by zero yields `0`.) -/
def normalize (v : Vec3) : Vec3 := v.scale (1 / v.length)

/-- `glam::Vec3::cross`. -/
def cross (v w : Vec3) : Vec3 :=
  ⟨v.y * w.z - v.z * w.y, v.z * w.x - v.x * w.z, v.x * w.y - v.y * w.x⟩

end Vec3

/-- `f32::to_radians`: degrees to radians. -/
def f32ToRadians (deg : ℝ) : ℝ := deg * (Real.pi / 180)

/-- `f32::clamp(lo, hi)` (for `lo ≤ hi`): raise to `lo`, then cap at `hi`. -/
def clampR (x lo hi : ℝ) : ℝ := min (max x lo) hi

/-- Truncation toward zero, as used by Rust's `%` on floats. -/
def rustTrunc (x : ℝ) : ℝ := if 0 ≤ x then ((⌊x⌋ : ℤ) : ℝ) else ((⌈x⌉ : ℤ) : ℝ)

/-- Rust's `%` remainder on floats: `a - b * trunc (a / b)`. -/
def rustRem (a b : ℝ) : ℝ := a - b * rustTrunc (a / b)

/-- `src/renderer/trajectory/mod.rs` `Direction`. -/
inductive Direction where
  | FORWARDS
  | BACKWARDS
  | LEFT
  | RIGHT
deriving DecidableEq

/-- `src/renderer/trajectory/mod.rs` `calculate_direction_vector`:
`x = cos pitch * cos yaw`, `y = sin pitch`, `z = cos pitch * sin yaw`,
then normalized. -/
def calculate_direction_vector (yaw_radians pitch_radians : ℝ) : Vec3 :=
  Vec3.normalize
    ⟨Real.cos pitch_radians * Real.cos yaw_radians,
     Real.sin pitch_radians,
     Real.cos pitch_radians * Real.sin yaw_radians⟩

/-- `src/renderer/trajectory/linear.rs` `LinearTrajectory`.  `transformPos` is
the position stored in the shared `Arc<RwLock<Transform>>` cell. -/
structure LinearTrajectory where
  id : String
  transformPos : Vec3
  start_position : Vec3
  yaw_radians : ℝ
  pitch_radians : ℝ
  distance : ℝ
  speed : ℝ
  progress : ℝ
  looping : Bool
  reversing : Bool
  direction : Direction

namespace LinearTrajectory

def MIN_PROGRESS : ℝ := -1

def MAX_PROGRESS : ℝ := 1

def ZERO_PROGRESS : ℝ := 0

/-- `LinearTrajectory::new_deconstructed_mesh`: rejects `distance == 0.0` and
`speed == 0.0`, otherwise starts at zero progress moving forwards. -/
def new_deconstructed_mesh (id : String) (transformPos start_position : Vec3)
    (yaw_radians pitch_radians distance speed : ℝ) (looping reversing : Bool) :
    Except String LinearTrajectory :=
  if distance = 0 ∨ speed = 0 then
    .error "Distance and speed must be non-zero!"
  else
    .ok
      { id := id
        transformPos := transformPos
        start_position := start_position
        yaw_radians := yaw_radians
        pitch_radians := pitch_radians
        distance := distance
        speed := speed
        progress := ZERO_PROGRESS
        looping := looping
        reversing := reversing
        direction := Direction.FORWARDS }

/-- `LinearTrajectory::animate` (the `Trajectory` impl).  `lockAcquired` is the
outcome of `self.transform.try_write()`; the returned pair is the state after
the call together with the `Result`.  The Rust `match` on `self.direction` has
arms only for `FORWARDS`/`BACKWARDS` (the only constructors reachable from the
constructor and the transition rules); the other arms leave progress as is. -/
def animate (s : LinearTrajectory) (lockAcquired : Bool) (delta : ℝ) :
    LinearTrajectory × Except String Unit :=
  if lockAcquired then
    let direction_vector := calculate_direction_vector s.yaw_radians s.pitch_radians
    let progressStepped :=
      match s.direction with
      | Direction.FORWARDS => s.progress + s.speed / s.distance * delta
      | Direction.BACKWARDS => s.progress - s.speed / s.distance * delta
      | _ => s.progress
    let progressClamped := clampR progressStepped MIN_PROGRESS MAX_PROGRESS
    let posWritten :=
      s.start_position + (direction_vector.scale s.distance).scale progressClamped
    let dir1 :=
      if MAX_PROGRESS ≤ progressClamped ∧ s.reversing then Direction.BACKWARDS
      else s.direction
    let dir2 :=
      if progressClamped ≤ MIN_PROGRESS ∧ s.looping then Direction.FORWARDS
      else dir1
    if MAX_PROGRESS ≤ progressClamped ∧ s.looping ∧ s.reversing = false then
      ({ s with
          transformPos := s.start_position
          progress := ZERO_PROGRESS
          direction := dir2 }, .ok ())
    else
      ({ s with
          transformPos := posWritten
          progress := progressClamped
          direction := dir2 }, .ok ())
  else
    (s, .error ("Failed to acquire lock on transform: " ++ s.id))

/-- `LinearTrajectory::reset`: zero progress, direction forwards, and (when the
non-blocking write succeeds) position back to `start_position`. -/
def reset (s : LinearTrajectory) (lockAcquired : Bool) : LinearTrajectory :=
  let s1 := { s with progress := ZERO_PROGRESS, direction := Direction.FORWARDS }
  if lockAcquired then { s1 with transformPos := s1.start_position } else s1

end LinearTrajectory

namespace AnimatorCirc

/-- `src/renderer/animator/trajectory/circular.rs` `CircularTrajectory`
(the `Animation` impl: angle in radians, wrapped mod `2π`). -/
structure CircularTrajectory where
  id : String
  transformPos : Vec3
  radius : ℝ
  angle : ℝ
  speed : ℝ

/-- `CircularTrajectory::new_deconstructed_mesh`: rejects `radius <= 0.0` and
`speed <= 0.0`. -/
def new_deconstructed_mesh (id : String) (transformPos : Vec3) (radius speed : ℝ) :
    Except String CircularTrajectory :=
  if radius ≤ 0 ∨ speed ≤ 0 then
    .error "Radius and speed have to be non-negative/non-zero!"
  else
    .ok { id := id, transformPos := transformPos, radius := radius, speed := speed, angle := 0 }

/-- `CircularTrajectory::animate` (`Animation` impl): with a target, writes
`x = t.x + r·cos angle`, `y = t.y`, `z = t.z + r·sin angle`; without a target
only `x` and `z` are written (the cell's `y` is untouched); then the angle
advances by `speed · delta` and is wrapped with Rust `%` by `2π`.  The target
argument carries the target transform's position. -/
def animate (s : CircularTrajectory) (lockAcquired : Bool) (target : Option Vec3)
    (delta : ℝ) : CircularTrajectory × Except String Unit :=
  if lockAcquired then
    let pos :=
      match target with
      | some t =>
          Vec3.mk (t.x + s.radius * Real.cos s.angle) t.y (t.z + s.radius * Real.sin s.angle)
      | none =>
          Vec3.mk (s.radius * Real.cos s.angle) s.transformPos.y (s.radius * Real.sin s.angle)
    ({ s with
        transformPos := pos
        angle := rustRem (s.angle + s.speed * delta) (2 * Real.pi) }, .ok ())
  else
    (s, .error ("Failed to acquire lock on mesh transform " ++ s.id))

/-- `CircularTrajectory::reset` (`Animation` impl): zero the angle. -/
def reset (s : CircularTrajectory) : CircularTrajectory := { s with angle := 0 }

end AnimatorCirc

namespace TrajCirc

/-- `src/renderer/trajectory/circular.rs` `CircularTrajectory` (the legacy
`Trajectory` impl: angle kept in degrees, converted at use, never wrapped). -/
structure CircularTrajectory where
  transformPos : Vec3
  radius : ℝ
  angle : ℝ
  speed : ℝ

/-- `CircularTrajectory::new`: no validation; `speed` fixed to `100`, the
remaining fields (`angle`) from `Default`. -/
def new (transformPos : Vec3) (radius : ℝ) : CircularTrajectory :=
  { transformPos := transformPos, radius := radius, speed := 100, angle := 0 }

/-- `CircularTrajectory::animate` (`Trajectory` impl): writes only `x` and `z`
(`y` untouched in both branches), with the angle converted to radians at use;
afterwards `angle += speed · delta`, unwrapped. -/
def animate (s : CircularTrajectory) (lockAcquired : Bool) (target : Option Vec3)
    (delta : ℝ) : CircularTrajectory × Except String Unit :=
  if lockAcquired then
    let pos :=
      match target with
      | some t =>
          Vec3.mk (t.x + s.radius * Real.cos (f32ToRadians s.angle)) s.transformPos.y
            (t.z + s.radius * Real.sin (f32ToRadians s.angle))
      | none =>
          Vec3.mk (s.radius * Real.cos (f32ToRadians s.angle)) s.transformPos.y
            (s.radius * Real.sin (f32ToRadians s.angle))
    ({ s with transformPos := pos, angle := s.angle + s.speed * delta }, .ok ())
  else
    (s, .error "Failed to acquire lock on mesh transform")

/-- `CircularTrajectory::reset` (`Trajectory` impl): zero the angle. -/
def reset (s : CircularTrajectory) : CircularTrajectory := { s with angle := 0 }

end TrajCirc

/-- `StationaryTrajectory` (both the `Trajectory` and the `Animation` version):
`animate` is a successful no-op and `reset` does nothing. -/
structure StationaryTrajectory where
  id : String

namespace StationaryTrajectory

def animate (s : StationaryTrajectory) (_target : Option Vec3) (_delta : ℝ) :
    StationaryTrajectory × Except String Unit := (s, .ok ())

def reset (s : StationaryTrajectory) : StationaryTrajectory := s

end StationaryTrajectory

/-- `src/renderer/animator/mod.rs` `Animator`, generic over the state `σ` of
the boxed `dyn Animation` it wraps. -/
structure Animator (σ : Type) where
  id : String
  elapsed_time : ℝ
  speed_multiplier : ℝ
  is_currently_playing : Bool
  animation : σ

namespace Animator

/-- `Animator::new`: elapsed time starts at zero, playing by default. -/
def new {σ : Type} (speed_multiplier : ℝ) (id : String) (animation : σ) : Animator σ :=
  { id := id
    speed_multiplier := speed_multiplier
    elapsed_time := 0
    is_currently_playing := true
    animation := animation }

/-- `Animator::play`: a no-op when not playing; otherwise `elapsed_time` is
incremented by `delta_time` and the wrapped strategy's `animate` is invoked
with no target and delta `speed_multiplier * delta_time`, any error wrapped
with the animator's id as context.  `animateFn` is the wrapped strategy's
dynamically dispatched `animate` (state in, state and result out). -/
def play {σ : Type} (animateFn : σ → Option Vec3 → ℝ → σ × Except String Unit)
    (a : Animator σ) (delta_time : ℝ) : Animator σ × Except String Unit :=
  if a.is_currently_playing then
    let stepped := animateFn a.animation none (a.speed_multiplier * delta_time)
    let a1 := { a with elapsed_time := a.elapsed_time + delta_time, animation := stepped.1 }
    match stepped.2 with
    | .error e =>
        (a1, .error ("Error at animator " ++ a.id ++ " with the following message: " ++ e))
    | .ok _ => (a1, .ok ())
  else
    (a, .ok ())

/-- `Animator::pause`. -/
def pause {σ : Type} (a : Animator σ) : Animator σ := { a with is_currently_playing := false }

/-- `Animator::resume`. -/
def resume {σ : Type} (a : Animator σ) : Animator σ := { a with is_currently_playing := true }

end Animator

/-- `src/renderer/types/camera.rs` `smoothing_interpolation`:
`prev_value * precalculated_smoothing_factor + delta * smoothing_factor`. -/
def smoothing_interpolation (prev_value delta precalculated_smoothing_factor
    smoothing_factor : ℝ) : ℝ :=
  prev_value * precalculated_smoothing_factor + delta * smoothing_factor

/-- `src/renderer/types/camera.rs` `Yaw`. -/
structure Yaw where
  value : ℝ
  previous_delta : ℝ

namespace Yaw

/-- `Yaw::new`: previous smoothed delta starts at `F32_ZERO`. -/
def new (value : ℝ) : Yaw := { value := value, previous_delta := 0 }

/-- `Yaw::add`: compute the smoothed delta; if the value exceeds `π` subtract
`TAU = 2π` instead of adding the smoothed delta, otherwise add it; store the
smoothed delta either way. -/
def add (y : Yaw) (value one_minus_smoothing_value smoothing_factor : ℝ) : Yaw :=
  let smoothed_delta_interpolation :=
    smoothing_interpolation y.previous_delta value one_minus_smoothing_value smoothing_factor
  if Real.pi < y.value then
    { value := y.value - 2 * Real.pi, previous_delta := smoothed_delta_interpolation }
  else
    { value := y.value + smoothed_delta_interpolation,
      previous_delta := smoothed_delta_interpolation }

end Yaw

/-- `src/renderer/types/camera.rs` `Pitch`. -/
structure Pitch where
  value : ℝ
  previous_delta : ℝ

namespace Pitch

/-- `Pitch::PITCH_CLAMP = 89.0` degrees. -/
def PITCH_CLAMP : ℝ := 89

/-- `Pitch::new`: previous smoothed delta starts at `F32_ZERO`. -/
def new (value : ℝ) : Pitch := { value := value, previous_delta := 0 }

/-- `Pitch::add`: compute the smoothed delta, subtract it from the value
(inverted vertical axis) and clamp to `±PITCH_CLAMP.to_radians()`; store the
smoothed delta. -/
def add (p : Pitch) (value one_minus_smoothing_value smoothing_factor : ℝ) : Pitch :=
  let smoothed_interpolation_value :=
    smoothing_interpolation p.previous_delta value one_minus_smoothing_value smoothing_factor
  { value :=
      clampR (p.value - smoothed_interpolation_value)
        (-(f32ToRadians PITCH_CLAMP)) (f32ToRadians PITCH_CLAMP)
    previous_delta := smoothed_interpolation_value }

end Pitch

/-- `MouseAction` from the mouse-delta types. -/
inductive MouseAction where
  | CLICKED
  | RELEASED
  | NO_ACTION
deriving DecidableEq

/-- `MouseDelta`, reduced to the fields `CameraController::rotate` reads:
the 2D pointer delta, the button action, and the pointer-over-window flag. -/
structure MouseDelta where
  dx : ℝ
  dy : ℝ
  action : MouseAction
  is_mouse_on_window : Bool

/-- `src/renderer/components/camera.rs` `Camera`, reduced to the geometric
fields `CameraController` reads and writes (`eye`, `target`, `up`).  The
(out-of-scope) projection parameters do not influence any claim. -/
structure Camera where
  eye : Vec3
  target : Vec3
  up : Vec3

namespace Camera

/-- `Camera::move_camera_with_mouse` as invoked from
`CameraController::rotate` with the controller's yaw/pitch: the camera looks
along the direction vector computed from them (`target = eye + forward`). -/
def move_camera_with_mouse (c : Camera) (yaw : Yaw) (pitch : Pitch) : Camera :=
  { c with target := c.eye + calculate_direction_vector yaw.value pitch.value }

end Camera

/-- `src/renderer/handlers/camera_controller.rs` `CameraController`. -/
structure CameraController where
  speed : ℝ
  camera : Camera
  yaw : Yaw
  pitch : Pitch
  sensitivity : ℝ
  smoothing_factor : ℝ
  precalculated_smoothing : ℝ
  is_forward_pressed : Bool
  is_backward_pressed : Bool
  is_left_pressed : Bool
  is_right_pressed : Bool

namespace CameraController

/-- `CameraController::SMOOTHING_FACTOR = 0.35`. -/
def SMOOTHING_FACTOR : ℝ := 0.35

/-- `CameraController::new`: yaw starts at `-π/2`, pitch at `F32_ZERO`, the
smoothing factor at `0.35` with its complement precalculated, and no
directional key pressed. -/
def new (camera_speed sensitivity : ℝ) (camera : Camera) : CameraController :=
  { speed := camera_speed
    is_backward_pressed := false
    is_forward_pressed := false
    yaw := Yaw.new (-Real.pi / 2)
    pitch := Pitch.new 0
    precalculated_smoothing := 1 - SMOOTHING_FACTOR
    smoothing_factor := SMOOTHING_FACTOR
    sensitivity := sensitivity
    camera := camera
    is_left_pressed := false
    is_right_pressed := false }

/-- `CameraController::rotate`: only when the pointer is over the window and
the action is `CLICKED`, feed `delta * sensitivity` through the yaw and pitch
filters and point the camera along the new orientation. -/
def rotate (c : CameraController) (m : MouseDelta) : CameraController :=
  if m.is_mouse_on_window = true ∧ m.action = MouseAction.CLICKED then
    let yaw1 := c.yaw.add (m.dx * c.sensitivity) c.precalculated_smoothing c.smoothing_factor
    let pitch1 := c.pitch.add (m.dy * c.sensitivity) c.precalculated_smoothing c.smoothing_factor
    { c with
        yaw := yaw1
        pitch := pitch1
        camera := c.camera.move_camera_with_mouse yaw1 pitch1 }
  else
    c

/-- `CameraController::update_camera`: `forward`, its norm and magnitude and
`right` are computed once from the entry eye position; then forward (guarded
by `forward_mag > speed`), backward (unconditional) and the two strafing
updates are applied in sequence. -/
def update_camera (c : CameraController) (delta_time : ℝ) : CameraController :=
  let forward := c.camera.target - c.camera.eye
  let forward_norm := forward.normalize
  let forward_mag := forward.length
  let speed := c.speed * delta_time
  let eye1 :=
    if c.is_forward_pressed = true ∧ speed < forward_mag then
      c.camera.eye + forward_norm.scale speed
    else c.camera.eye
  let eye2 :=
    if c.is_backward_pressed = true then eye1 - forward_norm.scale speed else eye1
  let right := forward_norm.cross c.camera.up
  let eye3 :=
    if c.is_right_pressed = true then
      c.camera.target - ((forward + right.scale speed).normalize.scale forward_mag)
    else eye2
  let eye4 :=
    if c.is_left_pressed = true then
      c.camera.target - ((forward - right.scale speed).normalize.scale forward_mag)
    else eye3
  { c with camera := { c.camera with eye := eye4 } }

end CameraController

/-- `true` exactly on `Except.ok`. -/
def exceptIsOk {ε α : Type} : Except ε α → Bool
  | .ok _ => true
  | .error _ => false

/-- The direction vector exactly as the claim states it:
`dir = (cos(pitch)·cos(yaw), cos(pitch)·sin(yaw), sin(pitch))`
(vertical component in the third coordinate).  Kept for comparison with
`calculate_direction_vector`, which puts `sin pitch` in the second (`y`)
coordinate. -/
def linearClaimDir (yaw pitch : ℝ) : Vec3 :=
  ⟨Real.cos pitch * Real.cos yaw, Real.cos pitch * Real.sin yaw, Real.sin pitch⟩

/-- The unit direction the code actually uses, written out: `x = cos pitch ·
cos yaw`, `y = sin pitch`, `z = cos pitch · sin yaw` (already unit length, so
the `normalize` in `calculate_direction_vector` is the identity on it). -/
def linearSpecDir (yaw pitch : ℝ) : Vec3 :=
  ⟨Real.cos pitch * Real.cos yaw, Real.sin pitch, Real.cos pitch * Real.sin yaw⟩

/-- One `advance` step of the Linear strategy, written from the claim's words
(with the direction vector's component order corrected to the code's):
progress moves by `±(speed/distance)·dt` and is clamped to `[-1, 1]`; the
position is `start + dir·distance·progress`; after clamping, direction flips
to Backwards at `progress ≥ 1` with `reversing`, flips to Forwards at
`progress ≤ -1` with `looping`, and at `progress ≥ 1` with `looping` and not
`reversing` the position snaps back to start and progress resets to `0`. -/
def linearSpecStep (s : LinearTrajectory) (dt : ℝ) : LinearTrajectory :=
  let dir := linearSpecDir s.yaw_radians s.pitch_radians
  let signed : ℝ := if s.direction = Direction.FORWARDS then 1 else -1
  let p := clampR (s.progress + signed * (s.speed / s.distance) * dt) (-1) 1
  let pos := s.start_position + (dir.scale s.distance).scale p
  let d1 := if 1 ≤ p ∧ s.reversing = true then Direction.BACKWARDS else s.direction
  let d2 := if p ≤ -1 ∧ s.looping = true then Direction.FORWARDS else d1
  if 1 ≤ p ∧ s.looping = true ∧ s.reversing = false then
    { s with transformPos := s.start_position, progress := 0, direction := d2 }
  else
    { s with transformPos := pos, progress := p, direction := d2 }

/-- A linear trajectory aimed straight up (yaw `0`, pitch `π/2`), used to
compare the code's direction-vector layout with the one the claim states. -/
def pitchUpLinear : LinearTrajectory :=
  { id := "Test"
    transformPos := ⟨0, 0, 0⟩
    start_position := ⟨0, 0, 0⟩
    yaw_radians := 0
    pitch_radians := Real.pi / 2
    distance := 1
    speed := 1
    progress := 0
    looping := false
    reversing := false
    direction := Direction.FORWARDS }

/-! ## Helper lemmas -/

theorem dir_vec_sq_sum (yaw pitch : ℝ) :
    (Real.cos pitch * Real.cos yaw) ^ 2 + Real.sin pitch ^ 2 +
      (Real.cos pitch * Real.sin yaw) ^ 2 = 1 := by
  have h1 := Real.sin_sq_add_cos_sq yaw
  have h2 := Real.sin_sq_add_cos_sq pitch
  nlinarith [h1, h2]

/-- The raw direction triple is already unit length, so the `normalize` inside
`calculate_direction_vector` is the identity on it. -/
theorem calculate_direction_vector_eq (yaw pitch : ℝ) :
    calculate_direction_vector yaw pitch = linearSpecDir yaw pitch := by
  have h : Real.sqrt ((Real.cos pitch * Real.cos yaw) ^ 2 + Real.sin pitch ^ 2 +
      (Real.cos pitch * Real.sin yaw) ^ 2) = 1 := by
    rw [dir_vec_sq_sum]; exact Real.sqrt_one
  simp only [calculate_direction_vector, Vec3.normalize, Vec3.length, Vec3.scale,
    linearSpecDir, h]
  norm_num

theorem Vec3.add_def (v w : Vec3) : v + w = ⟨v.x + w.x, v.y + w.y, v.z + w.z⟩ := rfl

theorem Vec3.sub_def (v w : Vec3) : v - w = ⟨v.x - w.x, v.y - w.y, v.z - w.z⟩ := rfl

theorem clampR_mem (x lo hi : ℝ) (h : lo ≤ hi) :
    lo ≤ clampR x lo hi ∧ clampR x lo hi ≤ hi := by
  unfold clampR
  exact ⟨le_min (le_max_right x lo) h, min_le_right _ _⟩

theorem length_circle (r θ : ℝ) (hr : 0 ≤ r) :
    (Vec3.mk (r * Real.cos θ) 0 (r * Real.sin θ)).length = r := by
  unfold Vec3.length
  have h : (r * Real.cos θ) ^ 2 + (0 : ℝ) ^ 2 + (r * Real.sin θ) ^ 2 = r ^ 2 := by
    have := Real.sin_sq_add_cos_sq θ
    nlinarith [this]
  rw [h, Real.sqrt_sq hr]

theorem sqrt_circle_xz (r θ : ℝ) (hr : 0 ≤ r) :
    Real.sqrt ((r * Real.cos θ) ^ 2 + (r * Real.sin θ) ^ 2) = r := by
  have h : (r * Real.cos θ) ^ 2 + (r * Real.sin θ) ^ 2 = r ^ 2 := by
    have := Real.sin_sq_add_cos_sq θ
    nlinarith [this]
  rw [h, Real.sqrt_sq hr]

/-! ## C2 -/

/-- C2: when the non-blocking write on the shared transform fails, `animate`
on the Linear strategy and on the (animator) Circular strategy returns a
lock-contention error naming the object, and the strategy state — progress and
direction for Linear, angle for Circular, and the shared position — is
returned unchanged. -/
theorem animate_lock_failure_leaves_state_unchanged :
    (∀ (s : LinearTrajectory) (delta : ℝ),
      s.animate false delta =
        (s, Except.error ("Failed to acquire lock on transform: " ++ s.id))) ∧
    (∀ (c : AnimatorCirc.CircularTrajectory) (target : Option Vec3) (delta : ℝ),
      AnimatorCirc.animate c false target delta =
        (c, Except.error ("Failed to acquire lock on mesh transform " ++ c.id))) := by
  constructor
  · intro s delta
    simp [LinearTrajectory.animate]
  · intro c target delta
    simp [AnimatorCirc.animate]

/-! ## C9 -/

/-- C9: `reset` is idempotent on every motion-strategy variant: a second
`reset` (under the same lock availability, for the variant that touches the
shared transform) leaves the whole state — progress, direction, angle and the
shared position — exactly as after the first one. -/
theorem reset_idempotent :
    (∀ (s : LinearTrajectory) (b : Bool), (s.reset b).reset b = s.reset b) ∧
    (∀ c : AnimatorCirc.CircularTrajectory,
      AnimatorCirc.reset (AnimatorCirc.reset c) = AnimatorCirc.reset c) ∧
    (∀ c : TrajCirc.CircularTrajectory,
      TrajCirc.reset (TrajCirc.reset c) = TrajCirc.reset c) ∧
    (∀ s : StationaryTrajectory, s.reset.reset = s.reset) := by
  refine ⟨?_, ?_, ?_, ?_⟩
  · intro s b
    cases b <;> simp [LinearTrajectory.reset]
  · intro c
    simp [AnimatorCirc.reset]
  · intro c
    simp [TrajCirc.reset]
  · intro s
    simp [StationaryTrajectory.reset]

/-! ## C4 -/

/-- C4 counterexample: a Linear construction with a *negative* distance
(distance `-1`, speed `1`) succeeds, although the claim says zero or negative
distance is rejected at construction time. -/
theorem linear_new_negative_distance_succeeds :
    exceptIsOk (LinearTrajectory.new_deconstructed_mesh "Test" ⟨0, 0, 0⟩ ⟨0, 0, 0⟩
      0 0 (-1) 1 false false) = true := by
  rw [LinearTrajectory.new_deconstructed_mesh, if_neg (by norm_num)]
  rfl

/-- C4 (amended): Linear construction fails exactly when `distance = 0` or
`speed = 0` (negative values are accepted); the animator Circular construction
fails exactly when `radius ≤ 0` or `speed ≤ 0`; the legacy Circular
constructor performs no validation at all (it is total and records any radius,
with speed fixed to `100`). -/
theorem construction_validation_characterized :
    (∀ (id : String) (tp sp : Vec3) (yaw pitch distance speed : ℝ) (lo rv : Bool),
      exceptIsOk (LinearTrajectory.new_deconstructed_mesh id tp sp yaw pitch
        distance speed lo rv) = true ↔ distance ≠ 0 ∧ speed ≠ 0) ∧
    (∀ (id : String) (tp : Vec3) (radius speed : ℝ),
      exceptIsOk (AnimatorCirc.new_deconstructed_mesh id tp radius speed) = true ↔
        0 < radius ∧ 0 < speed) ∧
    (∀ (tp : Vec3) (radius : ℝ),
      (TrajCirc.new tp radius).radius = radius ∧ (TrajCirc.new tp radius).speed = 100) := by
  refine ⟨?_, ?_, ?_⟩
  · intro id tp sp yaw pitch distance speed lo rv
    by_cases h : distance = 0 ∨ speed = 0
    · rw [LinearTrajectory.new_deconstructed_mesh, if_pos h]
      simp [exceptIsOk]
      tauto
    · rw [LinearTrajectory.new_deconstructed_mesh, if_neg h]
      push_neg at h
      simp [exceptIsOk, h]
  · intro id tp radius speed
    by_cases h : radius ≤ 0 ∨ speed ≤ 0
    · rw [AnimatorCirc.new_deconstructed_mesh, if_pos h]
      simp [exceptIsOk]
      rcases h with h | h
      · exact fun hr => absurd hr (not_lt.mpr h)
      · exact fun _ => h
    · rw [AnimatorCirc.new_deconstructed_mesh, if_neg h]
      push_neg at h
      simp [exceptIsOk]
      exact ⟨h.1, h.2⟩
  · intro tp radius
    exact ⟨rfl, rfl⟩

/-! ## C7 -/

/-- C7: each `Yaw` update computes
`smoothed = previous_smoothed_delta·(1-α) + raw·α`; when the current value
exceeds `π` it subtracts `2π` instead of adding the smoothed delta, otherwise
it adds the smoothed delta; the stored previous delta becomes the new smoothed
value in both cases. -/
theorem yaw_add_spec (y : Yaw) (raw α : ℝ) :
    y.add raw (1 - α) α =
      { value :=
          if Real.pi < y.value then y.value - 2 * Real.pi
          else y.value + (y.previous_delta * (1 - α) + raw * α)
        previous_delta := y.previous_delta * (1 - α) + raw * α } := by
  unfold Yaw.add smoothing_interpolation
  by_cases h : Real.pi < y.value <;> simp [h]

/-! ## C5 -/

/-- C5: `Animator::play(dt)` is a complete no-op when not playing (the wrapped
strategy is not invoked and nothing changes); when playing it accumulates
`elapsed_time += dt`, runs the wrapped strategy's `animate` with no target and
delta `speed_multiplier · dt` (keeping the strategy state that call
produces), and turns any strategy error into an error carrying the
animator's id as context. -/
theorem animator_play_spec {σ : Type}
    (animateFn : σ → Option Vec3 → ℝ → σ × Except String Unit)
    (a : Animator σ) (dt : ℝ) :
    (a.is_currently_playing = false → Animator.play animateFn a dt = (a, Except.ok ())) ∧
    (a.is_currently_playing = true →
      (Animator.play animateFn a dt).1.elapsed_time = a.elapsed_time + dt ∧
      (Animator.play animateFn a dt).1.animation =
        (animateFn a.animation none (a.speed_multiplier * dt)).1 ∧
      (∀ e : String, (animateFn a.animation none (a.speed_multiplier * dt)).2 = .error e →
        (Animator.play animateFn a dt).2 =
          .error ("Error at animator " ++ a.id ++ " with the following message: " ++ e))) := by
  constructor
  · intro h
    simp [Animator.play, h]
  · intro h
    refine ⟨?_, ?_, ?_⟩
    · unfold Animator.play
      rw [if_pos h]
      rcases hc : (animateFn a.animation none (a.speed_multiplier * dt)).2 with e | u <;>
        simp [hc]
    · unfold Animator.play
      rw [if_pos h]
      rcases hc : (animateFn a.animation none (a.speed_multiplier * dt)).2 with e | u <;>
        simp [hc]
    · intro e he
      unfold Animator.play
      rw [if_pos h]
      simp [he]

/-- C5 witness: a freshly built animator with `speed_multiplier = 2` wrapping
a stationary strategy; `play 0.016` adds `0.016` to the elapsed time and feeds
the strategy the delta `2 · 0.016 = 0.032`. -/
theorem animator_play_spec_witness :
    (Animator.new (σ := StationaryTrajectory) 2 "mesh" ⟨"mesh"⟩).is_currently_playing = true ∧
    (Animator.play StationaryTrajectory.animate
        (Animator.new (σ := StationaryTrajectory) 2 "mesh" ⟨"mesh"⟩) 0.016).1.elapsed_time =
      (Animator.new (σ := StationaryTrajectory) 2 "mesh" ⟨"mesh"⟩).elapsed_time + 0.016 ∧
    (Animator.play StationaryTrajectory.animate
        (Animator.new (σ := StationaryTrajectory) 2 "mesh" ⟨"mesh"⟩) 0.016).1.animation =
      (StationaryTrajectory.animate
        (Animator.new (σ := StationaryTrajectory) 2 "mesh" ⟨"mesh"⟩).animation none
        ((Animator.new (σ := StationaryTrajectory) 2 "mesh" ⟨"mesh"⟩).speed_multiplier *
          0.016)).1 ∧
    (Animator.new (σ := StationaryTrajectory) 2 "mesh" ⟨"mesh"⟩).speed_multiplier *
      (0.016 : ℝ) = 0.032 := by
  have h := animator_play_spec (σ := StationaryTrajectory) StationaryTrajectory.animate
    (Animator.new 2 "mesh" ⟨"mesh"⟩) 0.016
  have hplay : (Animator.new (σ := StationaryTrajectory) 2 "mesh" ⟨"mesh"⟩).is_currently_playing
      = true := rfl
  refine ⟨hplay, (h.2 hplay).1, (h.2 hplay).2.1, ?_⟩
  show (2 : ℝ) * 0.016 = 0.032
  norm_num

/-! ## C10 -/

/-- C10: when the wrapped strategy errors during a playing `play(dt)`, the
elapsed time has nevertheless been incremented by the full `dt` in the state
`play` leaves behind, and the error is then propagated (with context): `play`
is not atomic on error. -/
theorem animator_play_error_still_accumulates {σ : Type}
    (animateFn : σ → Option Vec3 → ℝ → σ × Except String Unit)
    (a : Animator σ) (dt : ℝ) (e : String)
    (hplaying : a.is_currently_playing = true)
    (herr : (animateFn a.animation none (a.speed_multiplier * dt)).2 = .error e) :
    (Animator.play animateFn a dt).1.elapsed_time = a.elapsed_time + dt ∧
    (Animator.play animateFn a dt).2 =
      .error ("Error at animator " ++ a.id ++ " with the following message: " ++ e) := by
  unfold Animator.play
  rw [if_pos hplaying]
  simp [herr]

/-- C10 witness: an animator wrapping a Linear strategy whose transform write
fails (lock contention); `play 0.5` still accumulates the elapsed time `0.5`
and surfaces the contextualized lock error. -/
theorem animator_play_error_still_accumulates_witness :
    (Animator.new (σ := LinearTrajectory) 1 "L"
        ⟨"L", ⟨0, 0, 0⟩, ⟨0, 0, 0⟩, 0, 0, 1, 1, 0, false, false, Direction.FORWARDS⟩
      ).is_currently_playing = true ∧
    ((fun (s : LinearTrajectory) (_ : Option Vec3) (d : ℝ) => s.animate false d)
        (Animator.new (σ := LinearTrajectory) 1 "L"
          ⟨"L", ⟨0, 0, 0⟩, ⟨0, 0, 0⟩, 0, 0, 1, 1, 0, false, false, Direction.FORWARDS⟩
        ).animation none
        ((Animator.new (σ := LinearTrajectory) 1 "L"
          ⟨"L", ⟨0, 0, 0⟩, ⟨0, 0, 0⟩, 0, 0, 1, 1, 0, false, false, Direction.FORWARDS⟩
        ).speed_multiplier * 0.5)).2 =
      .error ("Failed to acquire lock on transform: " ++ "L") ∧
    (Animator.play (fun (s : LinearTrajectory) (_ : Option Vec3) (d : ℝ) => s.animate false d)
        (Animator.new (σ := LinearTrajectory) 1 "L"
          ⟨"L", ⟨0, 0, 0⟩, ⟨0, 0, 0⟩, 0, 0, 1, 1, 0, false, false, Direction.FORWARDS⟩)
        0.5).1.elapsed_time =
      (Animator.new (σ := LinearTrajectory) 1 "L"
        ⟨"L", ⟨0, 0, 0⟩, ⟨0, 0, 0⟩, 0, 0, 1, 1, 0, false, false, Direction.FORWARDS⟩
      ).elapsed_time + 0.5 := by
  have herr : ((fun (s : LinearTrajectory) (_ : Option Vec3) (d : ℝ) => s.animate false d)
      (Animator.new (σ := LinearTrajectory) 1 "L"
        ⟨"L", ⟨0, 0, 0⟩, ⟨0, 0, 0⟩, 0, 0, 1, 1, 0, false, false, Direction.FORWARDS⟩
      ).animation none
      ((Animator.new (σ := LinearTrajectory) 1 "L"
        ⟨"L", ⟨0, 0, 0⟩, ⟨0, 0, 0⟩, 0, 0, 1, 1, 0, false, false, Direction.FORWARDS⟩
      ).speed_multiplier * 0.5)).2 =
      .error ("Failed to acquire lock on transform: " ++ "L") := by
    simp [LinearTrajectory.animate, Animator.new]
  have h := animator_play_error_still_accumulates
    (fun (s : LinearTrajectory) (_ : Option Vec3) (d : ℝ) => s.animate false d)
    (Animator.new 1 "L"
      ⟨"L", ⟨0, 0, 0⟩, ⟨0, 0, 0⟩, 0, 0, 1, 1, 0, false, false, Direction.FORWARDS⟩)
    0.5 ("Failed to acquire lock on transform: " ++ "L") rfl herr
  exact ⟨rfl, herr, h.1⟩

/-! ## C6 -/

theorem pitch_clamp_radians_nonneg : 0 ≤ f32ToRadians Pitch.PITCH_CLAMP := by
  unfold f32ToRadians Pitch.PITCH_CLAMP
  positivity

theorem pitch_add_value_mem (p : Pitch) (v a b : ℝ) :
    -(f32ToRadians Pitch.PITCH_CLAMP) ≤ (p.add v a b).value ∧
      (p.add v a b).value ≤ f32ToRadians Pitch.PITCH_CLAMP := by
  unfold Pitch.add
  exact clampR_mem _ _ _ (by linarith [pitch_clamp_radians_nonneg])

theorem rotate_preserves_pitch_range (c : CameraController) (m : MouseDelta)
    (h : -(f32ToRadians Pitch.PITCH_CLAMP) ≤ c.pitch.value ∧
      c.pitch.value ≤ f32ToRadians Pitch.PITCH_CLAMP) :
    -(f32ToRadians Pitch.PITCH_CLAMP) ≤ (c.rotate m).pitch.value ∧
      (c.rotate m).pitch.value ≤ f32ToRadians Pitch.PITCH_CLAMP := by
  unfold CameraController.rotate
  by_cases hg : m.is_mouse_on_window = true ∧ m.action = MouseAction.CLICKED
  · rw [if_pos hg]
    exact pitch_add_value_mem _ _ _ _
  · rw [if_neg hg]
    exact h

theorem foldl_rotate_preserves_pitch_range (ms : List MouseDelta) :
    ∀ c : CameraController,
      (-(f32ToRadians Pitch.PITCH_CLAMP) ≤ c.pitch.value ∧
        c.pitch.value ≤ f32ToRadians Pitch.PITCH_CLAMP) →
      -(f32ToRadians Pitch.PITCH_CLAMP) ≤
          (ms.foldl CameraController.rotate c).pitch.value ∧
        (ms.foldl CameraController.rotate c).pitch.value ≤
          f32ToRadians Pitch.PITCH_CLAMP := by
  induction ms with
  | nil => intro c h; exact h
  | cons m t ih =>
      intro c h
      exact ih (c.rotate m) (rotate_preserves_pitch_range c m h)

/-- C6: starting from a freshly constructed camera controller and feeding it
any sequence of raw pointer-delta events (however long or extreme), the pitch
value stays within `[-89°, 89°]` in radians after every update; and each
`Pitch` update is exactly
`pitch = clamp(pitch - smoothed, -89°, 89°)` for the smoothed delta. -/
theorem pitch_always_within_clamp :
    (∀ (camera_speed sensitivity : ℝ) (camera : Camera) (ms : List MouseDelta),
      -(f32ToRadians Pitch.PITCH_CLAMP) ≤
          (ms.foldl CameraController.rotate
            (CameraController.new camera_speed sensitivity camera)).pitch.value ∧
        (ms.foldl CameraController.rotate
            (CameraController.new camera_speed sensitivity camera)).pitch.value ≤
          f32ToRadians Pitch.PITCH_CLAMP) ∧
    (∀ (p : Pitch) (v a b : ℝ),
      (p.add v a b).value =
        clampR (p.value - smoothing_interpolation p.previous_delta v a b)
          (-(f32ToRadians Pitch.PITCH_CLAMP)) (f32ToRadians Pitch.PITCH_CLAMP)) := by
  constructor
  · intro camera_speed sensitivity camera ms
    apply foldl_rotate_preserves_pitch_range
    have h0 : (CameraController.new camera_speed sensitivity camera).pitch.value = 0 := rfl
    rw [h0]
    exact ⟨by linarith [pitch_clamp_radians_nonneg], pitch_clamp_radians_nonneg⟩
  · intro p v a b
    rfl

/-! ## C1 -/

/-- C1 (amended): a successful `advance(None, dt)` on a Linear strategy agrees
exactly with the claim's step — progress moved by `±(speed/distance)·dt` and
clamped to `[-1, 1]`, position `start + dir·distance·progress`, direction
flips and the hard-loop snap evaluated after clamping — once the unit
direction is corrected to the code's component order
`dir = (cos pitch · cos yaw, sin pitch, cos pitch · sin yaw)`
(vertical component second, not third). -/
theorem linear_animate_matches_claim_step (s : LinearTrajectory) (dt : ℝ)
    (h : s.direction = Direction.FORWARDS ∨ s.direction = Direction.BACKWARDS) :
    s.animate true dt = (linearSpecStep s dt, Except.ok ()) := by
  unfold LinearTrajectory.animate linearSpecStep
  rw [calculate_direction_vector_eq]
  rcases h with hd | hd
  · simp only [hd, if_pos, reduceIte, LinearTrajectory.MIN_PROGRESS,
      LinearTrajectory.MAX_PROGRESS, LinearTrajectory.ZERO_PROGRESS, one_mul]
    split <;> rfl
  · have harith : s.progress - s.speed / s.distance * dt =
        s.progress + -1 * (s.speed / s.distance) * dt := by ring
    simp only [hd, reduceCtorEq, reduceIte, LinearTrajectory.MIN_PROGRESS,
      LinearTrajectory.MAX_PROGRESS, LinearTrajectory.ZERO_PROGRESS, harith]
    split <;> rfl

/-- C1 counterexample: for the trajectory aimed straight up (yaw `0`, pitch
`π/2`), after a successful `advance(None, 1/2)` the written position is
`(0, 1/2, 0)` — it does not satisfy the claim's formula
`start + dir·distance·progress` with the claim's literally stated direction
`dir = (cos pitch · cos yaw, cos pitch · sin yaw, sin pitch) = (0, 0, 1)`,
which would put the displacement in the third (z) component. -/
theorem linear_claimed_direction_counterexample :
    ((pitchUpLinear.animate true (1 / 2)).1).transformPos ≠
      pitchUpLinear.start_position +
        ((linearClaimDir pitchUpLinear.yaw_radians pitchUpLinear.pitch_radians).scale
          pitchUpLinear.distance).scale ((pitchUpLinear.animate true (1 / 2)).1).progress := by
  have hanim : (pitchUpLinear.animate true (1 / 2)).1 =
      { pitchUpLinear with transformPos := ⟨0, 1 / 2, 0⟩, progress := 1 / 2 } := by
    unfold LinearTrajectory.animate pitchUpLinear
    rw [calculate_direction_vector_eq]
    norm_num [clampR, LinearTrajectory.MIN_PROGRESS, LinearTrajectory.MAX_PROGRESS,
      max_eq_left, min_eq_left, linearSpecDir, Vec3.scale, Vec3.add_def,
      Real.cos_pi_div_two, Real.sin_pi_div_two, Real.cos_zero, Real.sin_zero]
  intro heq
  rw [hanim] at heq
  have hz := congrArg Vec3.z heq
  simp only [pitchUpLinear, linearClaimDir, Vec3.scale, Vec3.add_def,
    Real.cos_pi_div_two, Real.sin_pi_div_two, Real.cos_zero, Real.sin_zero] at hz
  norm_num at hz

/-- C1 witness: the amended step applied to the valid forward-moving sample
trajectory of the spec's own scenario (start `(0,0,0)`, yaw `0`, pitch `0`,
distance `10`, speed `5`). -/
theorem linear_animate_matches_claim_step_witness :
    ((⟨"Test", ⟨0, 0, 0⟩, ⟨0, 0, 0⟩, 0, 0, 10, 5, 0, false, true,
        Direction.FORWARDS⟩ : LinearTrajectory).direction = Direction.FORWARDS ∨
      (⟨"Test", ⟨0, 0, 0⟩, ⟨0, 0, 0⟩, 0, 0, 10, 5, 0, false, true,
        Direction.FORWARDS⟩ : LinearTrajectory).direction = Direction.BACKWARDS) ∧
    (⟨"Test", ⟨0, 0, 0⟩, ⟨0, 0, 0⟩, 0, 0, 10, 5, 0, false, true,
        Direction.FORWARDS⟩ : LinearTrajectory).animate true 1 =
      (linearSpecStep
        ⟨"Test", ⟨0, 0, 0⟩, ⟨0, 0, 0⟩, 0, 0, 10, 5, 0, false, true,
          Direction.FORWARDS⟩ 1, Except.ok ()) := by
  refine ⟨Or.inl rfl, ?_⟩
  exact linear_animate_matches_claim_step
    ⟨"Test", ⟨0, 0, 0⟩, ⟨0, 0, 0⟩, 0, 0, 10, 5, 0, false, true, Direction.FORWARDS⟩ 1
    (Or.inl rfl)

/-! ## C3 -/

/-- C3 counterexample: a Circular strategy whose shared transform starts at
`(0, 5, 0)`; a successful `animate(None, 1)` leaves the written position's
vertical component at `5`, not `0` as the claim states for the no-target
case (the code never writes `y` in that branch). -/
theorem circular_no_target_nonzero_y_counterexample :
    ((AnimatorCirc.animate ⟨"C", ⟨0, 5, 0⟩, 1, 0, 1⟩ true none 1).1.transformPos).y ≠ 0 := by
  simp [AnimatorCirc.animate]

/-- C3 (amended): for a successful `animate` on the animator Circular strategy
with a target, the written position is
`(t.x + r·cos angle, t.y, t.z + r·sin angle)` and lies at distance exactly
`radius` from the target; with no target, `x` and `z` are as claimed but the
vertical component is left *unchanged* (not set to `0`), so the position lies
at distance `radius` from the origin in the horizontal (XZ) plane — and at
full 3D distance `radius` from the origin exactly when the stored `y` is `0`.
The legacy Circular strategy keeps its angle in degrees and never writes `y`
at all (even with a target), staying at horizontal distance `radius` from the
target's footprint. -/
theorem circular_animate_on_circle
    (c : AnimatorCirc.CircularTrajectory) (l : TrajCirc.CircularTrajectory)
    (t u : Vec3) (dt du : ℝ) (hc : 0 < c.radius) (hl : 0 < l.radius) :
    ((AnimatorCirc.animate c true (some t) dt).1.transformPos =
        ⟨t.x + c.radius * Real.cos c.angle, t.y, t.z + c.radius * Real.sin c.angle⟩ ∧
      ((AnimatorCirc.animate c true (some t) dt).1.transformPos - t).length = c.radius) ∧
    ((AnimatorCirc.animate c true none dt).1.transformPos =
        ⟨c.radius * Real.cos c.angle, c.transformPos.y, c.radius * Real.sin c.angle⟩ ∧
      Real.sqrt (((AnimatorCirc.animate c true none dt).1.transformPos).x ^ 2 +
          ((AnimatorCirc.animate c true none dt).1.transformPos).z ^ 2) = c.radius ∧
      (c.transformPos.y = 0 →
        ((AnimatorCirc.animate c true none dt).1.transformPos - 0).length = c.radius)) ∧
    ((TrajCirc.animate l true (some u) du).1.transformPos =
        ⟨u.x + l.radius * Real.cos (f32ToRadians l.angle), l.transformPos.y,
          u.z + l.radius * Real.sin (f32ToRadians l.angle)⟩ ∧
      Real.sqrt ((((TrajCirc.animate l true (some u) du).1.transformPos).x - u.x) ^ 2 +
          (((TrajCirc.animate l true (some u) du).1.transformPos).z - u.z) ^ 2) =
        l.radius) := by
  refine ⟨⟨rfl, ?_⟩, ⟨rfl, ?_, ?_⟩, rfl, ?_⟩
  · have hsub : (AnimatorCirc.animate c true (some t) dt).1.transformPos - t =
        ⟨c.radius * Real.cos c.angle, 0, c.radius * Real.sin c.angle⟩ := by
      simp [AnimatorCirc.animate, Vec3.sub_def]
    rw [hsub]
    exact length_circle _ _ hc.le
  · have hx : ((AnimatorCirc.animate c true none dt).1.transformPos).x =
        c.radius * Real.cos c.angle := rfl
    have hz : ((AnimatorCirc.animate c true none dt).1.transformPos).z =
        c.radius * Real.sin c.angle := rfl
    rw [hx, hz]
    exact sqrt_circle_xz _ _ hc.le
  · intro hy
    have hsub : (AnimatorCirc.animate c true none dt).1.transformPos - 0 =
        ⟨c.radius * Real.cos c.angle, 0, c.radius * Real.sin c.angle⟩ := by
      simp [AnimatorCirc.animate, Vec3.sub_def, show (0 : Vec3) = ⟨0, 0, 0⟩ from rfl, hy]
    rw [hsub]
    exact length_circle _ _ hc.le
  · have hx : ((TrajCirc.animate l true (some u) du).1.transformPos).x - u.x =
        l.radius * Real.cos (f32ToRadians l.angle) := by
      simp [TrajCirc.animate]
    have hz : ((TrajCirc.animate l true (some u) du).1.transformPos).z - u.z =
        l.radius * Real.sin (f32ToRadians l.angle) := by
      simp [TrajCirc.animate]
    rw [hx, hz]
    exact sqrt_circle_xz _ _ hl.le

/-- C3 witness: a radius-1 animator orbit around target `(3, 4, 5)` ends each
successful frame at distance exactly `1` from the target. -/
theorem circular_animate_on_circle_witness :
    (0 : ℝ) < 1 ∧
    ((AnimatorCirc.animate ⟨"C", ⟨0, 0, 0⟩, 1, 0, 1⟩ true (some ⟨3, 4, 5⟩) 1).1.transformPos -
        ⟨3, 4, 5⟩).length = 1 := by
  have h := circular_animate_on_circle ⟨"C", ⟨0, 0, 0⟩, 1, 0, 1⟩ (TrajCirc.new ⟨0, 0, 0⟩ 2)
    ⟨3, 4, 5⟩ ⟨1, 0, 2⟩ 1 1 (by norm_num) (by norm_num [TrajCirc.new])
  exact ⟨by norm_num, h.1.2⟩

/-! ## C8 -/

theorem Vec3.length_nonneg (v : Vec3) : 0 ≤ v.length := Real.sqrt_nonneg _

theorem Vec3.zero_def : (0 : Vec3) = ⟨0, 0, 0⟩ := rfl

theorem Vec3.length_eq_zero (v : Vec3) : v.length = 0 ↔ v = 0 := by
  unfold Vec3.length
  rw [show Real.sqrt (v.x ^ 2 + v.y ^ 2 + v.z ^ 2) = 0 ↔
      v.x ^ 2 + v.y ^ 2 + v.z ^ 2 ≤ 0 from Real.sqrt_eq_zero']
  constructor
  · intro h
    have hx : v.x = 0 := by nlinarith [sq_nonneg v.x, sq_nonneg v.y, sq_nonneg v.z]
    have hy : v.y = 0 := by nlinarith [sq_nonneg v.x, sq_nonneg v.y, sq_nonneg v.z]
    have hz : v.z = 0 := by nlinarith [sq_nonneg v.x, sq_nonneg v.y, sq_nonneg v.z]
    cases v
    rw [Vec3.zero_def]
    simp_all
  · intro h
    rw [h, Vec3.zero_def]
    norm_num

theorem Vec3.length_scale (v : Vec3) (k : ℝ) : (v.scale k).length = |k| * v.length := by
  unfold Vec3.scale Vec3.length
  rw [show (v.x * k) ^ 2 + (v.y * k) ^ 2 + (v.z * k) ^ 2 =
      k ^ 2 * (v.x ^ 2 + v.y ^ 2 + v.z ^ 2) by ring,
    Real.sqrt_mul (sq_nonneg k), Real.sqrt_sq_eq_abs]

theorem Vec3.length_normalize (v : Vec3) (h : v ≠ 0) : v.normalize.length = 1 := by
  unfold Vec3.normalize
  rw [Vec3.length_scale]
  have h0 : v.length ≠ 0 := fun hh => h ((Vec3.length_eq_zero v).1 hh)
  have hpos : 0 < v.length := lt_of_le_of_ne (Vec3.length_nonneg v) (Ne.symm h0)
  rw [abs_of_pos (by positivity)]
  field_simp

theorem Vec3.length_sub_symm (v w : Vec3) : (v - w).length = (w - v).length := by
  simp only [Vec3.sub_def, Vec3.length]
  congr 1
  ring

theorem Vec3.length_sub_sub (t s : Vec3) : (t - s - t).length = s.length := by
  simp only [Vec3.sub_def, Vec3.length]
  congr 1
  ring

/-- C8: in `update_camera(dt)` with `step = speed · dt`: with only the forward
key held the eye advances toward the target exactly when the remaining
distance exceeds `step` (and otherwise does not move); with only the backward
key held the eye retreats unconditionally by `step`; with the right (resp.
left) key held the eye is recomputed as
`target - normalize(forward ± right·step) · ‖forward‖`, which preserves the
eye-to-target distance whenever the combined direction is nonzero. -/
theorem update_camera_spec (c : CameraController) (dt : ℝ) :
    (c.is_forward_pressed = true → c.is_backward_pressed = false →
      c.is_left_pressed = false → c.is_right_pressed = false →
      (c.update_camera dt).camera.eye =
        (if c.speed * dt < (c.camera.target - c.camera.eye).length then
          c.camera.eye + (c.camera.target - c.camera.eye).normalize.scale (c.speed * dt)
        else c.camera.eye)) ∧
    (c.is_backward_pressed = true → c.is_forward_pressed = false →
      c.is_left_pressed = false → c.is_right_pressed = false →
      (c.update_camera dt).camera.eye =
        c.camera.eye - (c.camera.target - c.camera.eye).normalize.scale (c.speed * dt)) ∧
    (c.is_right_pressed = true → c.is_left_pressed = false →
      (c.update_camera dt).camera.eye =
        c.camera.target -
          ((c.camera.target - c.camera.eye +
              ((c.camera.target - c.camera.eye).normalize.cross c.camera.up).scale
                (c.speed * dt)).normalize.scale (c.camera.target - c.camera.eye).length) ∧
      (c.camera.target - c.camera.eye +
          ((c.camera.target - c.camera.eye).normalize.cross c.camera.up).scale
            (c.speed * dt) ≠ 0 →
        ((c.update_camera dt).camera.eye - c.camera.target).length =
          (c.camera.eye - c.camera.target).length)) ∧
    (c.is_left_pressed = true →
      (c.update_camera dt).camera.eye =
        c.camera.target -
          ((c.camera.target - c.camera.eye -
              ((c.camera.target - c.camera.eye).normalize.cross c.camera.up).scale
                (c.speed * dt)).normalize.scale (c.camera.target - c.camera.eye).length) ∧
      (c.camera.target - c.camera.eye -
          ((c.camera.target - c.camera.eye).normalize.cross c.camera.up).scale
            (c.speed * dt) ≠ 0 →
        ((c.update_camera dt).camera.eye - c.camera.target).length =
          (c.camera.eye - c.camera.target).length)) := by
  refine ⟨?_, ?_, ?_, ?_⟩
  · intro hf hb hl hr
    unfold CameraController.update_camera
    simp [hf, hb, hl, hr]
  · intro hb hf hl hr
    unfold CameraController.update_camera
    simp [hf, hb, hl, hr]
  · intro hr hl
    have heq : (c.update_camera dt).camera.eye =
        c.camera.target -
          ((c.camera.target - c.camera.eye +
              ((c.camera.target - c.camera.eye).normalize.cross c.camera.up).scale
                (c.speed * dt)).normalize.scale (c.camera.target - c.camera.eye).length) := by
      unfold CameraController.update_camera
      simp [hr, hl]
    refine ⟨heq, fun hw => ?_⟩
    rw [heq, Vec3.length_sub_sub, Vec3.length_scale, Vec3.length_normalize _ hw, mul_one,
      abs_of_nonneg (Vec3.length_nonneg _)]
    exact Vec3.length_sub_symm _ _
  · intro hl
    have heq : (c.update_camera dt).camera.eye =
        c.camera.target -
          ((c.camera.target - c.camera.eye -
              ((c.camera.target - c.camera.eye).normalize.cross c.camera.up).scale
                (c.speed * dt)).normalize.scale (c.camera.target - c.camera.eye).length) := by
      unfold CameraController.update_camera
      simp [hl]
    refine ⟨heq, fun hw => ?_⟩
    rw [heq, Vec3.length_sub_sub, Vec3.length_scale, Vec3.length_normalize _ hw, mul_one,
      abs_of_nonneg (Vec3.length_nonneg _)]
    exact Vec3.length_sub_symm _ _

/-- C8 witness: a controller one unit behind the origin-looking camera with
only the right-strafe key held; the combined strafe direction is nonzero and
one frame of `update_camera` keeps the eye at its entry distance from the
target. -/
theorem update_camera_spec_witness :
    ((⟨1, ⟨⟨0, 0, 1⟩, ⟨0, 0, 0⟩, ⟨0, 1, 0⟩⟩, Yaw.new 0, Pitch.new 0, 1, 0.35, 0.65,
        false, false, false, true⟩ : CameraController).is_right_pressed = true) ∧
    ((⟨1, ⟨⟨0, 0, 1⟩, ⟨0, 0, 0⟩, ⟨0, 1, 0⟩⟩, Yaw.new 0, Pitch.new 0, 1, 0.35, 0.65,
        false, false, false, true⟩ : CameraController).is_left_pressed = false) ∧
    ((⟨⟨0, 0, 1⟩, ⟨0, 0, 0⟩, ⟨0, 1, 0⟩⟩ : Camera).target -
        (⟨⟨0, 0, 1⟩, ⟨0, 0, 0⟩, ⟨0, 1, 0⟩⟩ : Camera).eye +
        (((⟨⟨0, 0, 1⟩, ⟨0, 0, 0⟩, ⟨0, 1, 0⟩⟩ : Camera).target -
            (⟨⟨0, 0, 1⟩, ⟨0, 0, 0⟩, ⟨0, 1, 0⟩⟩ : Camera).eye).normalize.cross
          (⟨⟨0, 0, 1⟩, ⟨0, 0, 0⟩, ⟨0, 1, 0⟩⟩ : Camera).up).scale ((1 : ℝ) * 1) ≠ 0) ∧
    (((⟨1, ⟨⟨0, 0, 1⟩, ⟨0, 0, 0⟩, ⟨0, 1, 0⟩⟩, Yaw.new 0, Pitch.new 0, 1, 0.35, 0.65,
          false, false, false, true⟩ : CameraController).update_camera 1).camera.eye -
        (⟨⟨0, 0, 1⟩, ⟨0, 0, 0⟩, ⟨0, 1, 0⟩⟩ : Camera).target).length =
      ((⟨⟨0, 0, 1⟩, ⟨0, 0, 0⟩, ⟨0, 1, 0⟩⟩ : Camera).eye -
        (⟨⟨0, 0, 1⟩, ⟨0, 0, 0⟩, ⟨0, 1, 0⟩⟩ : Camera).target).length := by
  have hw : (⟨⟨0, 0, 1⟩, ⟨0, 0, 0⟩, ⟨0, 1, 0⟩⟩ : Camera).target -
      (⟨⟨0, 0, 1⟩, ⟨0, 0, 0⟩, ⟨0, 1, 0⟩⟩ : Camera).eye +
      (((⟨⟨0, 0, 1⟩, ⟨0, 0, 0⟩, ⟨0, 1, 0⟩⟩ : Camera).target -
          (⟨⟨0, 0, 1⟩, ⟨0, 0, 0⟩, ⟨0, 1, 0⟩⟩ : Camera).eye).normalize.cross
        (⟨⟨0, 0, 1⟩, ⟨0, 0, 0⟩, ⟨0, 1, 0⟩⟩ : Camera).up).scale ((1 : ℝ) * 1) ≠ 0 := by
    intro h
    have hz := congrArg Vec3.z h
    rw [Vec3.zero_def] at hz
    norm_num [Vec3.sub_def, Vec3.add_def, Vec3.normalize, Vec3.scale, Vec3.cross,
      Vec3.length, Real.sqrt_one] at hz
  have h := (update_camera_spec
    (⟨1, ⟨⟨0, 0, 1⟩, ⟨0, 0, 0⟩, ⟨0, 1, 0⟩⟩, Yaw.new 0, Pitch.new 0, 1, 0.35, 0.65,
      false, false, false, true⟩ : CameraController) 1).2.2.1 rfl rfl
  exact ⟨rfl, rfl, hw, h.2 hw⟩

end

end Hyakou
